import Mathlib

/-!
Shallow embedding of the transport client and the mock/live data-source
switch of the react-ui-template repository.

Embedded source files:
- services/api/api-client.ts  (axios instance, request interceptor,
  response interceptor with 401 handling and error normalization)
- services/api/user.api.ts    (userApi: mock/live switch per operation)
- services/api/mock/user.mock.ts (mockCurrentUser, mockUsers,
  mockLoginResponse, simulateDelay)
- config/mock.config.ts, config/api.config.ts (boolean flag, axios config)

Modelling conventions:
- localStorage is reduced to the one key the slice touches, auth_token,
  held as an Option String inside BrowserState; window.location.href is
  the location field.
- new Date().toISOString() in the fixtures is an opaque timestamp; the
  fixtures are parameterised by a string now standing for the value it
  produced at module load.
- simulateDelay only waits and resolves with no value; timing is not
  modelled, so the delay disappears in the embedding.
- JavaScript truthiness of a possibly absent string (s ?? undefined used
  in a condition, or the a || b chain) is made explicit: an absent value
  and the empty string are falsy, every other string is truthy.
- console.log and console.error calls are pure diagnostics and are
  dropped.
-/

/-- Truthiness of a possibly absent JavaScript string: undefined, null and
the empty string are falsy. -/
def strTruthy : Option String → Bool
  | none => false
  | some s => s ≠ ""

/-- Evaluation of the JavaScript expression a || b when a is a possibly
absent string and b a string: the left side wins exactly when truthy. -/
def jsOrStr (a : Option String) (b : String) : String :=
  match a with
  | some s => if s = "" then b else s
  | none => b

/-- Browser-global state the slice touches: the localStorage entry under
the key auth_token, and window.location.href. -/
structure BrowserState where
  authToken : Option String
  location : String
deriving DecidableEq, Repr

/-- Association-list lookup for HTTP headers. -/
def getHeader (headers : List (String × String)) (name : String) : Option String :=
  (headers.find? (fun p => p.1 == name)).map (fun p => p.2)

/-- Setting a header: overwrite the entry when the name is present,
append it otherwise (the assignment config.headers.Authorization = v). -/
def setHeader (headers : List (String × String)) (name value : String) :
    List (String × String) :=
  if headers.any (fun p => p.1 == name) then
    headers.map (fun p => if p.1 == name then (name, value) else p)
  else
    headers ++ [(name, value)]

/-- Outbound request configuration (InternalAxiosRequestConfig): url,
method, headers, and the request body (config.data), opaque here. -/
structure RequestConfig where
  url : String
  method : String
  headers : List (String × String)
  body : Option String
deriving DecidableEq, Repr

/-- Request interceptor of api-client.ts (lines 26-48): reads the
auth_token entry; when it is truthy (present and non-empty, the
JavaScript test if (token && config.headers)), sets the header
Authorization: Bearer token; otherwise returns the config unchanged.
The headers object created by axios.create always exists, so the
config.headers conjunct always holds. -/
def requestInterceptor (st : BrowserState) (config : RequestConfig) : RequestConfig :=
  match st.authToken with
  | some token =>
    if token ≠ "" then
      { config with headers := setHeader config.headers "Authorization" ("Bearer " ++ token) }
    else
      config
  | none => config

/-- Body a failing endpoint may return, as typed at the interceptor:
AxiosError with data fields message and error, both optional. -/
structure ErrorData where
  message : Option String
  error : Option String
deriving DecidableEq, Repr

/-- Received HTTP response attached to a failure (error.response): status
code plus the parsed body; data is optional because the body can be
absent or not an object (the optional chain error.response?.data?). -/
structure ErrorResponse where
  status : Nat
  data : Option ErrorData
deriving DecidableEq, Repr

/-- Failure object the response interceptor receives (AxiosError):
its own message, the response when one was received (absent on pure
network or timeout failures), and the originating request config
(error.config). -/
structure AxiosError where
  message : String
  response : Option ErrorResponse
  config : Option RequestConfig
deriving DecidableEq, Repr

/-- Error shape the interceptor builds for non-401 failures:
message, status when a response exists, and the untouched
underlying failure. -/
structure NormalizedError where
  message : String
  status : Option Nat
  originalError : AxiosError
deriving DecidableEq, Repr

/-- Rejection value a caller of the transport slice can observe:
a thrown JavaScript Error carrying a message (mock paths), the raw
axios failure re-rejected by the 401 branch, or a normalized error. -/
inductive CallFailure where
  | thrown (message : String)
  | axiosRaw (e : AxiosError)
  | normalized (n : NormalizedError)
deriving DecidableEq, Repr

/-- Discriminator: does a rejection carry the normalized shape? -/
def CallFailure.isNormalizedShape : CallFailure → Bool
  | .normalized _ => true
  | _ => false

/-- Outcome of an interceptor run over a call producing an A: either the
promise chain resolves with a value or it rejects. -/
inductive InterceptOutcome (A : Type) where
  | resolve (value : A)
  | reject (failure : CallFailure)
deriving DecidableEq, Repr

/-- Value of the optional chain error.response?.data?.message. -/
def serverMessage (e : AxiosError) : Option String :=
  e.response.bind (fun r => r.data.bind (fun d => d.message))

/-- Value of the optional chain error.response?.data?.error. -/
def serverError (e : AxiosError) : Option String :=
  e.response.bind (fun r => r.data.bind (fun d => d.error))

/-- The errorMessage chain of api-client.ts (lines 78-82):
error.response?.data?.message || error.response?.data?.error ||
error.message || the generic fallback, with JavaScript || semantics. -/
def errorMessage (e : AxiosError) : String :=
  jsOrStr (serverMessage e)
    (jsOrStr (serverError e)
      (jsOrStr (some e.message) "An unexpected error occurred"))

/-- Guard of the 401 branch (line 69): error.response?.status === 401 &&
originalRequest, where originalRequest is error.config (an object, hence
truthy exactly when present). -/
def takes401Branch (e : AxiosError) : Bool :=
  (match e.response with
   | some r => r.status == 401
   | none => false) && e.config.isSome

/-- Response error interceptor of api-client.ts (lines 65-96). In the
401 branch it removes the auth_token entry, sets window.location.href to
/login and re-rejects the raw axios error; otherwise it rejects with the
normalized object made of errorMessage, error.response?.status and the
original error. It never resolves. -/
def responseErrorInterceptor (A : Type) (st : BrowserState) (e : AxiosError) :
    BrowserState × InterceptOutcome A :=
  if takes401Branch e then
    ({ st with authToken := none, location := "/login" }, .reject (.axiosRaw e))
  else
    (st, .reject (.normalized
      { message := errorMessage e
        status := (e.response).map (fun r => r.status)
        originalError := e }))

/-- One call through the transport client: the request interceptor runs,
the request goes out exactly once over the network oracle net, and on
failure the response error interceptor runs. The last component counts
how many times net was consulted; no code path dispatches the request
again. -/
def performCall (A : Type) (st : BrowserState)
    (net : RequestConfig → Except AxiosError A) (config : RequestConfig) :
    BrowserState × Except CallFailure A × Nat :=
  let sent := requestInterceptor st config
  match net sent with
  | .ok v => (st, .ok v, 1)
  | .error e =>
    match responseErrorInterceptor A st e with
    | (st2, .reject f) => (st2, .error f, 1)
    | (st2, .resolve v) => (st2, .ok v, 1)

/-- UserRole of user.types.ts. -/
inductive UserRole where
  | ADMIN
  | USER
  | GUEST
deriving DecidableEq, Repr

/-- User record of user.types.ts. -/
structure User where
  id : String
  email : String
  firstName : String
  lastName : String
  role : UserRole
  createdAt : String
  updatedAt : String
deriving DecidableEq, Repr

/-- LoginRequest of user.types.ts. -/
structure LoginRequest where
  email : String
  password : String
deriving DecidableEq, Repr

/-- LoginResponse of user.types.ts. -/
structure LoginResponse where
  user : User
  token : String
deriving DecidableEq, Repr

/-- ApiResponse of api.types.ts: the domain envelope every endpoint
returns; the repository layer unwraps the data field. -/
structure ApiResponse (A : Type) where
  data : A
  message : Option String
  timestamp : Option String
deriving DecidableEq, Repr

/-- PageResponse of api.types.ts: the pagination envelope. -/
structure PageResponse (A : Type) where
  content : List A
  totalElements : Nat
  totalPages : Nat
  size : Nat
  number : Nat
deriving DecidableEq, Repr

/-- Partial User (the TypeScript Partial mapped type): every field
optional; absent fields are keys the patch object does not carry. -/
structure UserPatch where
  id : Option String
  email : Option String
  firstName : Option String
  lastName : Option String
  role : Option UserRole
  createdAt : Option String
  updatedAt : Option String
deriving DecidableEq, Repr

/-- Patch with every field absent. -/
def UserPatch.empty : UserPatch :=
  { id := none, email := none, firstName := none, lastName := none
    role := none, createdAt := none, updatedAt := none }

/-- Object spread of user.api.ts line 104: the merge of patch p onto
record u, fields present in p overriding those of u. -/
def mergeUser (u : User) (p : UserPatch) : User :=
  { id := p.id.getD u.id
    email := p.email.getD u.email
    firstName := p.firstName.getD u.firstName
    lastName := p.lastName.getD u.lastName
    role := p.role.getD u.role
    createdAt := p.createdAt.getD u.createdAt
    updatedAt := p.updatedAt.getD u.updatedAt }

/-- The mockCurrentUser fixture of user.mock.ts; now stands for the
string new Date().toISOString() produced at module load. -/
def mockCurrentUser (now : String) : User :=
  { id := "1", email := "demo@example.com", firstName := "Demo"
    lastName := "User", role := .USER, createdAt := now, updatedAt := now }

/-- The mockUsers fixture of user.mock.ts: the ordered in-memory list of
three records. -/
def mockUsers (now : String) : List User :=
  [ mockCurrentUser now
  , { id := "2", email := "admin@example.com", firstName := "Admin"
      lastName := "User", role := .ADMIN, createdAt := now, updatedAt := now }
  , { id := "3", email := "guest@example.com", firstName := "Guest"
      lastName := "User", role := .GUEST, createdAt := now, updatedAt := now } ]

/-- The mockLoginResponse fixture of user.mock.ts. -/
def mockLoginResponse (now : String) : LoginResponse :=
  { user := mockCurrentUser now, token := "mock-jwt-token-12345" }

/-- Array.prototype.slice over natural indices: elements from start
(inclusive) to stop (exclusive). -/
def jsSlice (A : Type) (l : List A) (start stop : Nat) : List A :=
  (l.drop start).take (stop - start)

/-- Mock branch of userApi.getUserById (user.api.ts lines 35-40), over
the fixture list the module closes over: find the record by id, throw
Error User not found when none matches. -/
def getUserByIdMockOn (users : List User) (id : String) : Except String User :=
  match users.find? (fun u => u.id == id) with
  | some u => .ok u
  | none => .error "User not found"

/-- Mock branch of userApi.getUsers (user.api.ts lines 50-59):
content is mockUsers.slice(page * size, (page + 1) * size),
totalElements the fixture length, totalPages the ceiling of
length / size (Math.ceil over real division; for positive size this is
the natural-number formula below, and at size = 0 JavaScript produces
Infinity, which the embedding leaves outside the claims), size and
number echo the arguments. -/
def getUsersMockOn (users : List User) (page size : Nat) : PageResponse User :=
  { content := jsSlice User users (page * size) ((page + 1) * size)
    totalElements := users.length
    totalPages := (users.length + size - 1) / size
    size := size
    number := page }

/-- Mock branch of userApi.login (user.api.ts lines 71-78): both fields
truthy (non-empty) yields the fixed mockLoginResponse, anything else
throws Error Invalid credentials. -/
def loginMock (now : String) (credentials : LoginRequest) : Except String LoginResponse :=
  if credentials.email ≠ "" ∧ credentials.password ≠ "" then
    .ok (mockLoginResponse now)
  else
    .error "Invalid credentials"

/-- Mock branch of userApi.updateUser (user.api.ts lines 100-105) as a
step over the fixture store: the body only reads mockUsers (find, then
an object spread into a fresh object), so the store it leaves behind is
the one it received; the result is the merge, or Error User not found. -/
def updateUserMockStep (users : List User) (id : String) (patch : UserPatch) :
    List User × Except String User :=
  (users,
   match users.find? (fun u => u.id == id) with
   | some u => .ok (mergeUser u patch)
   | none => .error "User not found")

/-- Mock branch of userApi.deleteUser (user.api.ts lines 115-118) as a
step over the fixture store: after the simulated delay the body returns
with no statement touching mockUsers, so the store is unchanged and the
call resolves with no value. -/
def deleteUserMockStep (users : List User) (id : String) :
    List User × Except String Unit :=
  (users, .ok ())

/-- Default headers of API_CONFIG in api.config.ts. -/
def API_CONFIG_headers : List (String × String) :=
  [("Content-Type", "application/json")]

/-- Request configuration the repository layer hands to the client for
one endpoint; the serialized request body is abstracted (the
interceptors never read it). -/
def mkRequest (method url : String) (body : Option String) : RequestConfig :=
  { url := url, method := method, headers := API_CONFIG_headers, body := body }

/-- One userApi operation, following the uniform pattern of user.api.ts:
if MOCK_CONFIG.enabled, await the simulated delay and produce the mock
result (a thrown Error on the mock failure paths) with no network
traffic; otherwise make exactly one call through the transport client
and unwrap response.data.data. The Nat component counts consultations of
the network oracle. -/
def switchCall (A B : Type) (mockEnabled : Bool) (mockResult : Except String B)
    (st : BrowserState) (net : RequestConfig → Except AxiosError A)
    (config : RequestConfig) (unwrap : A → B) :
    BrowserState × Except CallFailure B × Nat :=
  if mockEnabled then
    (st, mockResult.mapError .thrown, 0)
  else
    match performCall A st net config with
    | (st2, .ok v, n) => (st2, .ok (unwrap v), n)
    | (st2, .error f, n) => (st2, .error f, n)

namespace userApi

/-- userApi.getUserById of user.api.ts (lines 34-44). -/
def getUserById (mockEnabled : Bool) (now : String) (st : BrowserState)
    (net : RequestConfig → Except AxiosError (ApiResponse User)) (id : String) :
    BrowserState × Except CallFailure User × Nat :=
  switchCall (ApiResponse User) User mockEnabled
    (getUserByIdMockOn (mockUsers now) id) st net
    (mkRequest "get" ("/users/" ++ id) none) (fun r => r.data)

/-- userApi.getUsers of user.api.ts (lines 49-65). -/
def getUsers (mockEnabled : Bool) (now : String) (st : BrowserState)
    (net : RequestConfig → Except AxiosError (ApiResponse (PageResponse User)))
    (page size : Nat) :
    BrowserState × Except CallFailure (PageResponse User) × Nat :=
  switchCall (ApiResponse (PageResponse User)) (PageResponse User) mockEnabled
    (.ok (getUsersMockOn (mockUsers now) page size)) st net
    (mkRequest "get" "/users" none) (fun r => r.data)

/-- userApi.login of user.api.ts (lines 70-82). -/
def login (mockEnabled : Bool) (now : String) (st : BrowserState)
    (net : RequestConfig → Except AxiosError (ApiResponse LoginResponse))
    (credentials : LoginRequest) :
    BrowserState × Except CallFailure LoginResponse × Nat :=
  switchCall (ApiResponse LoginResponse) LoginResponse mockEnabled
    (loginMock now credentials) st net
    (mkRequest "post" "/auth/login" none) (fun r => r.data)

end userApi

/-- Name of one userApi operation together with its arguments. -/
inductive UserApiOp where
  | getCurrentUserOp
  | getUserByIdOp (id : String)
  | getUsersOp (page size : Nat)
  | loginOp (credentials : LoginRequest)
  | logoutOp
  | updateUserOp (id : String) (patch : UserPatch)
  | deleteUserOp (id : String)
deriving DecidableEq, Repr

/-- Resolved value of one userApi operation. -/
inductive UserApiValue where
  | userValue (u : User)
  | pageValue (p : PageResponse User)
  | loginValue (r : LoginResponse)
  | unitValue
deriving DecidableEq, Repr

/-- The whole mock path of userApi: each branch taken when
MOCK_CONFIG.enabled holds, run against the browser state st. No branch
mentions localStorage or window.location, so the state passes through
untouched and the result is computed from the fixtures and the
arguments alone. -/
def runMockOp (now : String) (st : BrowserState) (op : UserApiOp) :
    BrowserState × Except String UserApiValue :=
  (st,
   match op with
   | .getCurrentUserOp => .ok (.userValue (mockCurrentUser now))
   | .getUserByIdOp id => (getUserByIdMockOn (mockUsers now) id).map .userValue
   | .getUsersOp page size => .ok (.pageValue (getUsersMockOn (mockUsers now) page size))
   | .loginOp credentials => (loginMock now credentials).map .loginValue
   | .logoutOp => .ok .unitValue
   | .updateUserOp id patch => ((updateUserMockStep (mockUsers now) id patch).2).map .userValue
   | .deleteUserOp id => .ok .unitValue)

deriving instance DecidableEq for Except

/-- Helper: after overwriting a matching entry, lookup finds the new value. -/
theorem find?_map_overwrite (name value : String) (hs : List (String × String))
    (h : hs.any (fun p => p.1 == name) = true) :
    (hs.map (fun p => if p.1 == name then (name, value) else p)).find?
      (fun p => p.1 == name) = some (name, value) := by
  induction hs with
  | nil => simp at h
  | cons q t ih =>
    by_cases hq : (q.1 == name) = true
    · rw [List.map_cons, if_pos hq]
      exact List.find?_cons_of_pos _ (beq_self_eq_true name)
    · simp only [List.any_cons, Bool.or_eq_true] at h
      rcases h with h | h
      · exact absurd h hq
      · have hq2 : ¬ ((fun p : String × String => p.1 == name) q = true) := hq
        rw [List.map_cons, if_neg hq,
          List.find?_cons_of_neg (List.map (fun p => if p.1 == name then (name, value) else p) t) hq2]
        exact ih h

/-- Helper: appending a fresh entry after no match makes lookup find it. -/
theorem find?_append_fresh (name value : String) (hs : List (String × String))
    (h : hs.any (fun p => p.1 == name) = false) :
    (hs ++ [(name, value)]).find? (fun p => p.1 == name) = some (name, value) := by
  induction hs with
  | nil => exact List.find?_cons_of_pos _ (beq_self_eq_true name)
  | cons q t ih =>
    simp only [List.any_cons, Bool.or_eq_false_iff] at h
    have hq2 : ¬ ((fun p : String × String => p.1 == name) q = true) := by
      simp [h.1]
    rw [List.cons_append, List.find?_cons_of_neg (t ++ [(name, value)]) hq2]
    exact ih h.2

/-- Helper: setHeader makes the header visible under getHeader. -/
theorem getHeader_setHeader (hs : List (String × String)) (name value : String) :
    getHeader (setHeader hs name value) name = some value := by
  unfold getHeader setHeader
  by_cases h : hs.any (fun p => p.1 == name) = true
  · rw [if_pos h, find?_map_overwrite name value hs h]
    rfl
  · simp only [Bool.not_eq_true] at h
    rw [if_neg (by simp [h]), find?_append_fresh name value hs h]
    rfl

/-- C1 (counterexample): the claim says a present token always yields the
Authorization header; with the auth_token entry present but equal to the
empty string, the JavaScript truthiness test if (token) fails and the
interceptor adds no Authorization header. -/
theorem c1_present_empty_token_no_header :
    ((⟨some "", "/dashboard"⟩ : BrowserState).authToken).isSome = true ∧
    getHeader (requestInterceptor ⟨some "", "/dashboard"⟩
        (mkRequest "get" "/users/me" none)).headers "Authorization" = none := by
  constructor
  · rfl
  · decide

/-- C1 (amended): for every outbound request, when the stored auth_token
entry is present and non-empty the interceptor sets the header
Authorization: Bearer token; when the entry is absent or empty (falsy) it
returns the config untouched, so no Authorization header is added; in
every case it neither fails nor changes the request body, url or method. -/
theorem requestInterceptor_spec (st : BrowserState) (config : RequestConfig) :
    (∀ t, st.authToken = some t → t ≠ "" →
      getHeader (requestInterceptor st config).headers "Authorization" =
        some ("Bearer " ++ t)) ∧
    (strTruthy st.authToken = false → requestInterceptor st config = config) ∧
    (requestInterceptor st config).body = config.body ∧
    (requestInterceptor st config).url = config.url ∧
    (requestInterceptor st config).method = config.method := by
  refine ⟨?_, ?_, ?_, ?_, ?_⟩
  · intro t ht hne
    simp [requestInterceptor, ht, hne, getHeader_setHeader]
  · intro hf
    cases h : st.authToken with
    | none => simp [requestInterceptor, h]
    | some t =>
      have : t = "" := by simpa [strTruthy, h] using hf
      simp [requestInterceptor, h, this]
  · cases h : st.authToken with
    | none => simp [requestInterceptor, h]
    | some t =>
      by_cases hne : t = "" <;> simp [requestInterceptor, h, hne]
  · cases h : st.authToken with
    | none => simp [requestInterceptor, h]
    | some t =>
      by_cases hne : t = "" <;> simp [requestInterceptor, h, hne]
  · cases h : st.authToken with
    | none => simp [requestInterceptor, h]
    | some t =>
      by_cases hne : t = "" <;> simp [requestInterceptor, h, hne]

/-- Witness for C1: at a concrete non-empty token the header is set. -/
theorem requestInterceptor_spec_witness :
    getHeader (requestInterceptor ⟨some "tok", "/dashboard"⟩
        (mkRequest "get" "/users/me" none)).headers "Authorization" =
      some ("Bearer " ++ "tok") :=
  (requestInterceptor_spec ⟨some "tok", "/dashboard"⟩
    (mkRequest "get" "/users/me" none)).1 "tok" rfl (by decide)

/-- C2: for every failure carrying a received response with status 401
(every axios response error also carries its request config, the second
conjunct of the guard), the interceptor removes the auth_token entry,
navigates to /login, and the call still rejects, with the raw error. -/
theorem response401_clears_redirects_rejects (A : Type) (st : BrowserState)
    (e : AxiosError) (r : ErrorResponse) (hr : e.response = some r)
    (h401 : r.status = 401) (hc : e.config.isSome = true) :
    (responseErrorInterceptor A st e).1.authToken = none ∧
    (responseErrorInterceptor A st e).1.location = "/login" ∧
    (responseErrorInterceptor A st e).2 = .reject (.axiosRaw e) := by
  have hb : takes401Branch e = true := by
    simp [takes401Branch, hr, h401, hc]
  simp [responseErrorInterceptor, hb]

/-- Witness for C2: a concrete 401 failure clears the token, lands on
/login and rejects with the raw error. -/
theorem response401_witness :
    (responseErrorInterceptor User ⟨some "tok", "/dashboard"⟩
        ⟨"Unauthorized", some ⟨401, none⟩,
          some (mkRequest "get" "/users/me" none)⟩).1.authToken = none ∧
    (responseErrorInterceptor User ⟨some "tok", "/dashboard"⟩
        ⟨"Unauthorized", some ⟨401, none⟩,
          some (mkRequest "get" "/users/me" none)⟩).1.location = "/login" :=
  have h := response401_clears_redirects_rejects User ⟨some "tok", "/dashboard"⟩
    ⟨"Unauthorized", some ⟨401, none⟩, some (mkRequest "get" "/users/me" none)⟩
    ⟨401, none⟩ rfl rfl rfl
  ⟨h.1, h.2.1⟩

/-- C3 (counterexample): the claim says every failure, including 401,
rejects with the normalized shape; on a concrete 401 failure the
interceptor re-rejects the raw axios error, which does not have the
normalized shape (no originalError wrapper). -/
theorem c3_401_rejects_raw_not_normalized :
    (responseErrorInterceptor User ⟨some "tok", "/dashboard"⟩
        ⟨"Unauthorized", some ⟨401, none⟩,
          some (mkRequest "get" "/users/me" none)⟩).2 =
      .reject (.axiosRaw ⟨"Unauthorized", some ⟨401, none⟩,
        some (mkRequest "get" "/users/me" none)⟩) ∧
    (CallFailure.axiosRaw ⟨"Unauthorized", some ⟨401, none⟩,
        some (mkRequest "get" "/users/me" none)⟩).isNormalizedShape = false := by
  constructor
  · decide
  · rfl

/-- C3 (amended): every failure through the response interceptor rejects
outward (nothing resolves, nothing is swallowed); non-401 failures reject
with the normalized shape built from errorMessage, the optional status
and the original error, while 401 failures reject with the raw
underlying error, the credential-clear and redirect happening in
addition to the rejection. -/
theorem responseError_always_rejects (A : Type) (st : BrowserState) (e : AxiosError) :
    (∃ f, (responseErrorInterceptor A st e).2 = .reject f) ∧
    (takes401Branch e = false →
      (responseErrorInterceptor A st e).2 = .reject (.normalized
        { message := errorMessage e
          status := e.response.map (fun r => r.status)
          originalError := e })) ∧
    (takes401Branch e = true →
      (responseErrorInterceptor A st e).2 = .reject (.axiosRaw e)) := by
  by_cases hb : takes401Branch e = true
  · exact ⟨⟨.axiosRaw e, by simp [responseErrorInterceptor, hb]⟩,
      fun hf => absurd hb (by simp [hf]),
      fun _ => by simp [responseErrorInterceptor, hb]⟩
  · have hf : takes401Branch e = false := by simpa using hb
    exact ⟨⟨.normalized
        { message := errorMessage e
          status := e.response.map (fun r => r.status)
          originalError := e }, by simp [responseErrorInterceptor, hf]⟩,
      fun _ => by simp [responseErrorInterceptor, hf],
      fun ht => absurd ht (by simp [hf])⟩

/-- Witness for C3: a concrete network failure (no response) rejects with
the normalized shape carrying its message and the original error. -/
theorem responseError_always_rejects_witness :
    (responseErrorInterceptor User ⟨none, "/dashboard"⟩
        ⟨"Network Error", none, none⟩).2 =
      .reject (.normalized
        { message := "Network Error"
          status := none
          originalError := ⟨"Network Error", none, none⟩ }) :=
  (responseError_always_rejects User ⟨none, "/dashboard"⟩
    ⟨"Network Error", none, none⟩).2.1 (by decide)

/-- C4 (counterexample): the claim says a present server message field is
always used; with the server message present but empty and the server
error field set, the JavaScript || chain skips the empty message and the
normalized message is the error field instead. -/
theorem c4_empty_server_message_not_used :
    serverMessage ⟨"boom", some ⟨500, some ⟨some "", some "server exploded"⟩⟩, none⟩ =
      some "" ∧
    errorMessage ⟨"boom", some ⟨500, some ⟨some "", some "server exploded"⟩⟩, none⟩ =
      "server exploded" := by
  constructor
  · rfl
  · decide

/-- C4 (amended): for non-401 failures the normalized message equals the
server message field when present and non-empty, else the server error
field when present and non-empty, else the transport error message when
non-empty, else the generic fallback, in that priority order; and the
rejection preserves the original failure in originalError. -/
theorem errorMessage_priority (A : Type) (st : BrowserState) (e : AxiosError) :
    (∀ m, serverMessage e = some m → m ≠ "" → errorMessage e = m) ∧
    (strTruthy (serverMessage e) = false →
      ∀ m, serverError e = some m → m ≠ "" → errorMessage e = m) ∧
    (strTruthy (serverMessage e) = false → strTruthy (serverError e) = false →
      e.message ≠ "" → errorMessage e = e.message) ∧
    (strTruthy (serverMessage e) = false → strTruthy (serverError e) = false →
      e.message = "" → errorMessage e = "An unexpected error occurred") ∧
    (takes401Branch e = false → (responseErrorInterceptor A st e).2 =
      .reject (.normalized
        { message := errorMessage e
          status := e.response.map (fun r => r.status)
          originalError := e })) := by
  refine ⟨?_, ?_, ?_, ?_, ?_⟩
  · intro m hm hne
    simp [errorMessage, hm, jsOrStr, hne]
  · intro hf m hm hne
    cases hsm : serverMessage e with
    | none => simp [errorMessage, hsm, hm, jsOrStr, hne]
    | some s =>
      rw [hsm] at hf
      have hs : s = "" := by simpa [strTruthy] using hf
      simp [errorMessage, hsm, hs, hm, jsOrStr, hne]
  · intro hf he hne
    cases hsm : serverMessage e with
    | none =>
      cases hse : serverError e with
      | none => simp [errorMessage, hsm, hse, jsOrStr, hne]
      | some s =>
        rw [hse] at he
        have hs : s = "" := by simpa [strTruthy] using he
        simp [errorMessage, hsm, hse, hs, jsOrStr, hne]
    | some s =>
      rw [hsm] at hf
      have hs : s = "" := by simpa [strTruthy] using hf
      cases hse : serverError e with
      | none => simp [errorMessage, hsm, hse, hs, jsOrStr, hne]
      | some s2 =>
        rw [hse] at he
        have hs2 : s2 = "" := by simpa [strTruthy] using he
        simp [errorMessage, hsm, hse, hs, hs2, jsOrStr, hne]
  · intro hf he hme
    cases hsm : serverMessage e with
    | none =>
      cases hse : serverError e with
      | none => simp [errorMessage, hsm, hse, jsOrStr, hme]
      | some s =>
        rw [hse] at he
        have hs : s = "" := by simpa [strTruthy] using he
        simp [errorMessage, hsm, hse, hs, jsOrStr, hme]
    | some s =>
      rw [hsm] at hf
      have hs : s = "" := by simpa [strTruthy] using hf
      cases hse : serverError e with
      | none => simp [errorMessage, hsm, hse, hs, jsOrStr, hme]
      | some s2 =>
        rw [hse] at he
        have hs2 : s2 = "" := by simpa [strTruthy] using he
        simp [errorMessage, hsm, hse, hs, hs2, jsOrStr, hme]
  · intro hb
    simp [responseErrorInterceptor, hb]

/-- Witness for C4: a concrete 500 with a non-empty server message field
normalizes to exactly that message. -/
theorem errorMessage_priority_witness :
    errorMessage ⟨"boom", some ⟨500, some ⟨some "Server says no", none⟩⟩, none⟩ =
      "Server says no" :=
  (errorMessage_priority User ⟨none, "/dashboard"⟩
    ⟨"boom", some ⟨500, some ⟨some "Server says no", none⟩⟩, none⟩).1
    "Server says no" rfl (by decide)

/-- C5: in mock mode getUsers returns content equal to the fixture sliced
at offset page times size (hence of length at most size), totalElements
the fixture length, totalPages the ceiling of length over size
(characterised by the two inequalities below for positive size), and
echoes size and number; over the 3-record fixture, page 0 with size 10
gives 3 records, 1 total page and number 0. -/
theorem getUsersMock_spec (now : String) (page size : Nat) :
    (getUsersMockOn (mockUsers now) page size).content =
      ((mockUsers now).drop (page * size)).take size ∧
    (getUsersMockOn (mockUsers now) page size).content.length ≤ size ∧
    (getUsersMockOn (mockUsers now) page size).totalElements = (mockUsers now).length ∧
    (0 < size →
      (mockUsers now).length ≤
        (getUsersMockOn (mockUsers now) page size).totalPages * size ∧
      (getUsersMockOn (mockUsers now) page size).totalPages * size <
        (mockUsers now).length + size) ∧
    (getUsersMockOn (mockUsers now) page size).size = size ∧
    (getUsersMockOn (mockUsers now) page size).number = page ∧
    (getUsersMockOn (mockUsers now) 0 10).content.length = 3 ∧
    (getUsersMockOn (mockUsers now) 0 10).totalPages = 1 ∧
    (getUsersMockOn (mockUsers now) 0 10).number = 0 := by
  have hspan : (page + 1) * size - page * size = size := by
    rw [Nat.add_mul, Nat.one_mul, Nat.add_sub_cancel_left]
  refine ⟨?_, ?_, rfl, ?_, rfl, rfl, rfl, ?_, rfl⟩
  · simp only [getUsersMockOn, jsSlice, hspan]
  · simp only [getUsersMockOn, jsSlice, hspan]
    exact List.length_take_le _ _
  · intro hs
    constructor
    · have h1 : (mockUsers now).length ≤
          size • (((mockUsers now).length : ℕ) ⌈/⌉ size) :=
        le_smul_ceilDiv hs
      have h1b : (mockUsers now).length ≤
          (((mockUsers now).length + size - 1) / size) * size := by
        calc (mockUsers now).length
            ≤ size • (((mockUsers now).length : ℕ) ⌈/⌉ size) := h1
          _ = (((mockUsers now).length + size - 1) / size) * size := by
              rw [smul_eq_mul, Nat.ceilDiv_eq_add_pred_div, Nat.mul_comm]
      simpa [getUsersMockOn] using h1b
    · have h2 := Nat.div_mul_le_self ((mockUsers now).length + size - 1) size
      have h3 : (mockUsers now).length + size - 1 < (mockUsers now).length + size :=
        Nat.sub_lt (by omega) Nat.one_pos
      simpa [getUsersMockOn] using lt_of_le_of_lt h2 h3
  · norm_num [getUsersMockOn, mockUsers]

/-- Witness for C5: at the concrete fixture, page 0, size 10, the
totalPages bound from the theorem holds. -/
theorem getUsersMock_spec_witness :
    (mockUsers "t").length ≤ (getUsersMockOn (mockUsers "t") 0 10).totalPages * 10 :=
  ((getUsersMock_spec "t" 0 10).2.2.2.1 (by decide)).1

/-- C6: mock login resolves with the fixed mockLoginResponse for every
credentials value with non-empty email and password, and rejects with
Invalid credentials whenever either field is empty; in particular at the
two concrete inputs of the claim. -/
theorem loginMock_spec (now : String) (credentials : LoginRequest) :
    (credentials.email ≠ "" → credentials.password ≠ "" →
      loginMock now credentials = .ok (mockLoginResponse now)) ∧
    (credentials.email = "" ∨ credentials.password = "" →
      loginMock now credentials = .error "Invalid credentials") ∧
    loginMock now ⟨"a@b.com", "x"⟩ = .ok (mockLoginResponse now) ∧
    loginMock now ⟨"", ""⟩ = .error "Invalid credentials" := by
  refine ⟨?_, ?_, rfl, rfl⟩
  · intro he hp
    simp [loginMock, he, hp]
  · intro h
    have hn : ¬ (credentials.email ≠ "" ∧ credentials.password ≠ "") := by
      rcases h with h | h <;> simp [h]
    simp [loginMock, hn]

/-- Witness for C6: the concrete valid credentials resolve with the fixed
mock payload. -/
theorem loginMock_spec_witness :
    loginMock "t" ⟨"a@b.com", "x"⟩ = .ok (mockLoginResponse "t") :=
  (loginMock_spec "t" ⟨"a@b.com", "x"⟩).1 (by decide) (by decide)

/-- C7: when no fixture record matches the id, the mock path rejects with
the thrown Error User not found (shown both on the mock branch function
and through the full mock-mode operation); when a record matches, that
record, whose id field equals the requested id, is returned; and on the
live path any failure of the backing service (a non-401 one, such as a
404 not-found) surfaces to the caller as a rejection carrying the
original failure. -/
theorem getUserById_not_found_spec (now id : String) (st : BrowserState)
    (net : RequestConfig → Except AxiosError (ApiResponse User)) :
    ((mockUsers now).find? (fun u => u.id == id) = none →
      getUserByIdMockOn (mockUsers now) id = .error "User not found" ∧
      (userApi.getUserById true now st net id).2.1 =
        .error (.thrown "User not found")) ∧
    (∀ u, (mockUsers now).find? (fun u2 => u2.id == id) = some u →
      getUserByIdMockOn (mockUsers now) id = .ok u ∧ u.id = id) ∧
    (∀ e, net (requestInterceptor st (mkRequest "get" ("/users/" ++ id) none)) =
        .error e →
      takes401Branch e = false →
      (userApi.getUserById false now st net id).2.1 = .error (.normalized
        { message := errorMessage e
          status := e.response.map (fun r => r.status)
          originalError := e })) := by
  refine ⟨?_, ?_, ?_⟩
  · intro h
    constructor
    · simp [getUserByIdMockOn, h]
    · simp [userApi.getUserById, switchCall, getUserByIdMockOn, h, Except.mapError]
  · intro u hu
    refine ⟨by simp [getUserByIdMockOn, hu], ?_⟩
    have hp := List.find?_some hu
    exact eq_of_beq hp
  · intro e he hb
    simp [userApi.getUserById, switchCall, performCall, he,
      responseErrorInterceptor, hb]

/-- Witness for C7: the concrete id does-not-exist rejects with the
not-found failure on the mock path. -/
theorem getUserById_not_found_witness :
    getUserByIdMockOn (mockUsers "t") "does-not-exist" = .error "User not found" :=
  ((getUserById_not_found_spec "t" "does-not-exist" ⟨none, "/dashboard"⟩
      (fun _ => .error ⟨"err", none, none⟩)).1 (by decide)).1

/-- C8: mock updateUser and deleteUser leave the fixture store exactly as
they found it (no write-back, no removal), so every later mock read over
the post-store agrees with a read over the original store; concretely,
updating record 1 returns the merge carrying the changed field while a
subsequent lookup of record 1 still returns the original record. -/
theorem mock_mutations_do_not_persist (now id id2 : String) (patch : UserPatch)
    (page size : Nat) :
    (updateUserMockStep (mockUsers now) id patch).1 = mockUsers now ∧
    (deleteUserMockStep (mockUsers now) id).1 = mockUsers now ∧
    getUserByIdMockOn (updateUserMockStep (mockUsers now) id patch).1 id2 =
      getUserByIdMockOn (mockUsers now) id2 ∧
    getUsersMockOn (deleteUserMockStep (mockUsers now) id).1 page size =
      getUsersMockOn (mockUsers now) page size ∧
    (updateUserMockStep (mockUsers now) "1"
        { UserPatch.empty with firstName := some "Changed" }).2 =
      .ok { mockCurrentUser now with firstName := "Changed" } ∧
    getUserByIdMockOn (updateUserMockStep (mockUsers now) "1"
        { UserPatch.empty with firstName := some "Changed" }).1 "1" =
      .ok (mockCurrentUser now) :=
  ⟨rfl, rfl, rfl, rfl, rfl, rfl⟩

/-- C9: per invocation, the transport client consults the network exactly
once and the data-source switch at most once (zero times in mock mode);
on a network failure the call rejects with the interceptor rejection, and
on a mock failure with the thrown error — no code path re-issues the
request. The retry option of the caller-side query client sits outside
this slice, as the claim scopes it. -/
theorem no_retries_spec (A B : Type) (mockEnabled : Bool)
    (mockResult : Except String B) (st : BrowserState)
    (net : RequestConfig → Except AxiosError A) (config : RequestConfig)
    (unwrap : A → B) :
    (performCall A st net config).2.2 = 1 ∧
    (switchCall A B mockEnabled mockResult st net config unwrap).2.2 ≤ 1 ∧
    (mockEnabled = true →
      (switchCall A B mockEnabled mockResult st net config unwrap).2.2 = 0) ∧
    (mockEnabled = false →
      (switchCall A B mockEnabled mockResult st net config unwrap).2.2 = 1) ∧
    (∀ e, net (requestInterceptor st config) = .error e →
      ∃ f, (performCall A st net config).2.1 = .error f) ∧
    (∀ msg, mockEnabled = true → mockResult = .error msg →
      (switchCall A B mockEnabled mockResult st net config unwrap).2.1 =
        .error (.thrown msg)) := by
  have hpc : ∀ x : Except AxiosError A, net (requestInterceptor st config) = x →
      (performCall A st net config).2.2 = 1 := by
    intro x hx
    cases x with
    | ok v => simp [performCall, hx]
    | error e =>
      cases hro : responseErrorInterceptor A st e with
      | mk st2 o =>
        cases o with
        | resolve v => simp [performCall, hx, hro]
        | reject f => simp [performCall, hx, hro]
  refine ⟨hpc _ rfl, ?_, ?_, ?_, ?_, ?_⟩
  · cases mockEnabled with
    | true => simp [switchCall]
    | false =>
      have h1 := hpc _ rfl
      cases hp : performCall A st net config with
      | mk st2 rn =>
        cases rn with
        | mk r n =>
          cases r with
          | ok v =>
            simp only [switchCall, Bool.false_eq_true, if_neg, hp]
            exact le_of_eq (by simpa [hp] using h1)
          | error f =>
            simp only [switchCall, Bool.false_eq_true, if_neg, hp]
            exact le_of_eq (by simpa [hp] using h1)
  · intro hm
    simp [switchCall, hm]
  · intro hm
    have h1 := hpc _ rfl
    cases hp : performCall A st net config with
    | mk st2 rn =>
      cases rn with
      | mk r n =>
        cases r with
        | ok v => simp [switchCall, hm, hp]; simpa [hp] using h1
        | error f => simp [switchCall, hm, hp]; simpa [hp] using h1
  · intro e he
    cases hro : responseErrorInterceptor A st e with
    | mk st2 o =>
      cases o with
      | resolve v =>
        exact absurd hro (by simp [responseErrorInterceptor]; split <;> simp)
      | reject f => exact ⟨f, by simp [performCall, he, hro]⟩
  · intro msg hm hr
    simp [switchCall, hm, hr, Except.mapError]

/-- Witness for C9: in mock mode with a concrete failing mock result, the
switch makes zero network calls. -/
theorem no_retries_spec_witness :
    (switchCall (ApiResponse User) User true (.error "User not found")
      ⟨none, "/dashboard"⟩ (fun _ => .error ⟨"err", none, none⟩)
      (mkRequest "get" "/users/x" none) (fun r => r.data)).2.2 = 0 :=
  (no_retries_spec (ApiResponse User) User true (.error "User not found")
    ⟨none, "/dashboard"⟩ (fun _ => .error ⟨"err", none, none⟩)
    (mkRequest "get" "/users/x" none) (fun r => r.data)).2.2.1 rfl

/-- C10: in mock mode every userApi operation is independent of the
stored credential: for any two browser states, in particular states
holding different tokens or none, the same operation with the same
arguments produces the same result, and the state (so also the auth_token
entry) passes through every mock operation unchanged. -/
theorem mock_results_independent_of_token (now : String) (op : UserApiOp)
    (st1 st2 : BrowserState) :
    (runMockOp now st1 op).2 = (runMockOp now st2 op).2 ∧
    (runMockOp now st1 op).1 = st1 ∧
    (runMockOp now st1 op).1.authToken = st1.authToken :=
  ⟨rfl, rfl, rfl⟩
